import Mathlib

/-!
Verification of the CortX process supervision engine
(`frontend/crates/cortx-core/src/process_manager.rs`).

The engine is embedded shallowly:

* The three registry maps (`processes`, `scripts`, `global_scripts`) of
  `ProcessManager` become association lists inside `ManagerState`, together
  with the `shutdown_flag` atomic boolean.
* Each engine operation becomes a pure function from a `ManagerState` (plus
  OS oracles: the result of `Command::spawn`, the result of
  `Child::try_wait`, the byte contents delivered by the stdout/stderr pipes)
  to its return value, the successor state, and the ordered list of atomic
  `Action`s the operation performs.  The action trace records mutex
  acquisition/release, event emission through the `ProcessEventEmitter`
  trait object, process spawning and the kill/wait calls, in the order the
  Rust source performs them, so that locking discipline and emission
  behaviour are both visible.
* One iteration of an exit-watch thread's `loop` body becomes a `tick`
  function; the line-oriented stdout/stderr pump threads become functions
  over the list of `BufRead::lines()` results (`Ok(String)` for a valid
  UTF-8 line, `Err` for an invalid one, mirroring `std::io::Lines`).
-/

deriving instance DecidableEq for Except

namespace CortX

/-- `LogStream` from `models.rs`. -/
inductive LogStream
  | stdout
  | stderr
deriving DecidableEq, Repr

/-- `ServiceStatus` from `models.rs`. -/
inductive ServiceStatus
  | stopped
  | starting
  | running
  | error
deriving DecidableEq, Repr

/-- `ScriptStatus` from `models.rs`. -/
inductive ScriptStatus
  | idle
  | running
  | completed
  | failed
deriving DecidableEq, Repr

/-- The three registries of `ProcessManager`: `processes` (services),
`scripts` (project scripts), `global_scripts`. -/
inductive Category
  | service
  | projectScript
  | globalScript
deriving DecidableEq, Repr

/-- The calls of the `ProcessEventEmitter` trait, one constructor per
trait method. -/
inductive Event
  | serviceLog (serviceId : String) (stream : LogStream) (content : String)
  | serviceStatus (serviceId : String) (status : ServiceStatus)
      (pid : Option Nat) (activeMode : Option String)
      (activeArgPreset : Option String)
  | serviceExit (serviceId : String) (exitCode : Option Int)
  | scriptLog (scriptId : String) (stream : LogStream) (content : String)
  | scriptStatus (scriptId : String) (status : ScriptStatus)
      (pid : Option Nat)
  | scriptExit (scriptId : String) (exitCode : Option Int) (success : Bool)
  | globalScriptLog (scriptId : String) (stream : LogStream) (content : String)
  | globalScriptStatus (scriptId : String) (status : ScriptStatus)
      (pid : Option Nat)
  | globalScriptExit (scriptId : String) (exitCode : Option Int)
      (success : Bool)
deriving DecidableEq, Repr

/-- Atomic steps an engine operation performs, in source order.  `lock c` /
`unlock c` are the acquisition and release of the `parking_lot::Mutex`
guarding category `c`; `emit` is a call into the `ProcessEventEmitter`. -/
inductive Action
  | lock (c : Category)
  | unlock (c : Category)
  | emit (e : Event)
  | spawnProc (pid : Nat)
  | spawnFail (reason : String)
  | tryWaitChild (pid : Nat)
  | killTree (pid : Nat)
  | killTreeRobust (pid : Nat)
  | killChild (pid : Nat)
  | waitChild (pid : Nat)
  | sleepMs (ms : Nat)
  | setShutdownFlag
deriving DecidableEq, Repr

/-- `ProcessInfo` from `process_manager.rs`; the owned `Child` handle is
abstracted away (its observable behaviour enters through the `try_wait`
oracle of the watch ticks). -/
structure ProcessInfo where
  serviceId : String
  pid : Nat
  activeMode : Option String
  activeArgPreset : Option String
deriving DecidableEq, Repr

/-- The mutable state of `ProcessManager`: the three registry maps and the
shutdown flag.  The `HashMap<String, ProcessInfo>` maps are modelled as
association lists with last-insert-wins lookup. -/
structure ManagerState where
  processes : List (String × ProcessInfo)
  scripts : List (String × ProcessInfo)
  globalScripts : List (String × ProcessInfo)
  shutdownFlag : Bool
deriving DecidableEq, Repr

/-- `ProcessManager::new()`. -/
def mgrNew : ManagerState :=
  { processes := [], scripts := [], globalScripts := [], shutdownFlag := false }

/-- `HashMap::get` on the association-list model. -/
def lookupA (m : List (String × ProcessInfo)) (k : String) :
    Option ProcessInfo :=
  match m with
  | [] => none
  | (k2, v) :: rest => if k2 = k then some v else lookupA rest k

/-- `HashMap::contains_key` on the association-list model. -/
def containsA (m : List (String × ProcessInfo)) (k : String) : Bool :=
  (lookupA m k).isSome

/-- `HashMap::remove` (the resulting map) on the association-list model. -/
def removeA (m : List (String × ProcessInfo)) (k : String) :
    List (String × ProcessInfo) :=
  m.filter (fun p => decide (p.1 ≠ k))

/-- `HashMap::insert` on the association-list model. -/
def insertA (m : List (String × ProcessInfo)) (k : String)
    (v : ProcessInfo) : List (String × ProcessInfo) :=
  (k, v) :: removeA m k

/-- The events carried by an action trace, in emission order. -/
def eventsOf (acts : List Action) : List Event :=
  acts.filterMap (fun a =>
    match a with
    | Action.emit e => some e
    | _ => none)

/-- Number of `spawn` calls recorded in a trace. -/
def spawnCount (acts : List Action) : Nat :=
  acts.countP (fun a =>
    match a with
    | Action.spawnProc _ => true
    | _ => false)

/-- Whether a trace performs an `emit` while at least one registry mutex is
held (the counter tracks lock nesting depth along the trace). -/
def emitsWhileLockedAux (acts : List Action) (depth : Nat) : Bool :=
  match acts with
  | [] => false
  | Action.lock _ :: rest => emitsWhileLockedAux rest (depth + 1)
  | Action.unlock _ :: rest => emitsWhileLockedAux rest (depth - 1)
  | Action.emit _ :: rest => decide (0 < depth) || emitsWhileLockedAux rest depth
  | _ :: rest => emitsWhileLockedAux rest depth

/-- A trace calls the event emitter while holding a registry mutex. -/
def emitsWhileLocked (acts : List Action) : Bool :=
  emitsWhileLockedAux acts 0

/-- `ProcessManager::start_service`.  `spawn` is the OS oracle for
`cmd.spawn()`: `Except.ok pid` on success, `Except.error reason` on
failure.  Returns the `Result`, the successor state, and the action
trace. -/
def start_service (st : ManagerState) (serviceId : String)
    (mode argPreset : Option String) (spawn : Except String Nat) :
    Except String Nat × ManagerState × List Action :=
  if containsA st.processes serviceId then
    (Except.error "Service is already running", st,
      [Action.lock Category.service, Action.unlock Category.service])
  else
    let pre : List Action :=
      [Action.lock Category.service, Action.unlock Category.service,
       Action.emit (Event.serviceStatus serviceId ServiceStatus.starting
         none mode argPreset)]
    match spawn with
    | Except.error e =>
        (Except.error ("Failed to start process: " ++ e), st,
          pre ++ [Action.spawnFail e])
    | Except.ok pid =>
        let info : ProcessInfo :=
          { serviceId := serviceId, pid := pid, activeMode := mode,
            activeArgPreset := argPreset }
        let st2 : ManagerState :=
          { st with processes := insertA st.processes serviceId info }
        (Except.ok pid, st2,
          pre ++
            [Action.spawnProc pid, Action.lock Category.service,
             Action.unlock Category.service,
             Action.emit (Event.serviceStatus serviceId ServiceStatus.running
               (some pid) mode argPreset)])

/-- `ProcessManager::stop_service`.  The registry mutex is held for the
whole function body (the `MutexGuard` lives to the end of scope in the
source), so the `unlock` action comes after the `emit`. -/
def stop_service (st : ManagerState) (serviceId : String) :
    Except String Unit × ManagerState × List Action :=
  match lookupA st.processes serviceId with
  | some info =>
      (Except.ok (), { st with processes := removeA st.processes serviceId },
        [Action.lock Category.service, Action.killTree info.pid,
         Action.killChild info.pid, Action.waitChild info.pid,
         Action.emit (Event.serviceStatus serviceId ServiceStatus.stopped
           none info.activeMode info.activeArgPreset),
         Action.unlock Category.service])
  | none =>
      (Except.error "Service is not running", st,
        [Action.lock Category.service, Action.unlock Category.service])

/-- `ProcessManager::is_running`. -/
def is_running (st : ManagerState) (serviceId : String) : Bool :=
  containsA st.processes serviceId

/-- `ProcessManager::get_running_services`. -/
def get_running_services (st : ManagerState) : List String :=
  st.processes.map Prod.fst

/-- `ProcessManager::run_script`.  Scripts skip the `Starting` status: the
first emitted status is `Running` with `pid = None`, before the spawn. -/
def run_script (st : ManagerState) (scriptId : String)
    (spawn : Except String Nat) :
    Except String Nat × ManagerState × List Action :=
  if containsA st.scripts scriptId then
    (Except.error "Script is already running", st,
      [Action.lock Category.projectScript, Action.unlock Category.projectScript])
  else
    let pre : List Action :=
      [Action.lock Category.projectScript, Action.unlock Category.projectScript,
       Action.emit (Event.scriptStatus scriptId ScriptStatus.running none)]
    match spawn with
    | Except.error e =>
        (Except.error ("Failed to start script: " ++ e), st,
          pre ++ [Action.spawnFail e])
    | Except.ok pid =>
        let info : ProcessInfo :=
          { serviceId := scriptId, pid := pid, activeMode := none,
            activeArgPreset := none }
        let st2 : ManagerState :=
          { st with scripts := insertA st.scripts scriptId info }
        (Except.ok pid, st2,
          pre ++
            [Action.spawnProc pid, Action.lock Category.projectScript,
             Action.unlock Category.projectScript,
             Action.emit (Event.scriptStatus scriptId ScriptStatus.running
               (some pid))])

/-- `ProcessManager::stop_script`.  The scripts mutex is held for the whole
body; the terminal `Failed` status (a stopped script is never reported
`Completed`) is emitted before the guard is dropped, and no `Exit` event is
emitted on this path. -/
def stop_script (st : ManagerState) (scriptId : String) :
    Except String Unit × ManagerState × List Action :=
  match lookupA st.scripts scriptId with
  | some info =>
      (Except.ok (), { st with scripts := removeA st.scripts scriptId },
        [Action.lock Category.projectScript, Action.killTree info.pid,
         Action.killChild info.pid, Action.waitChild info.pid,
         Action.emit (Event.scriptStatus scriptId ScriptStatus.failed none),
         Action.unlock Category.projectScript])
  | none =>
      (Except.error "Script is not running", st,
        [Action.lock Category.projectScript, Action.unlock Category.projectScript])

/-- `ProcessManager::is_script_running`. -/
def is_script_running (st : ManagerState) (scriptId : String) : Bool :=
  containsA st.scripts scriptId

/-- `ProcessManager::run_global_script`.  Identical protocol to
`run_script` on the `global_scripts` registry. -/
def run_global_script (st : ManagerState) (scriptId : String)
    (spawn : Except String Nat) :
    Except String Nat × ManagerState × List Action :=
  if containsA st.globalScripts scriptId then
    (Except.error "Global script is already running", st,
      [Action.lock Category.globalScript, Action.unlock Category.globalScript])
  else
    let pre : List Action :=
      [Action.lock Category.globalScript, Action.unlock Category.globalScript,
       Action.emit (Event.globalScriptStatus scriptId ScriptStatus.running none)]
    match spawn with
    | Except.error e =>
        (Except.error ("Failed to start global script: " ++ e), st,
          pre ++ [Action.spawnFail e])
    | Except.ok pid =>
        let info : ProcessInfo :=
          { serviceId := scriptId, pid := pid, activeMode := none,
            activeArgPreset := none }
        let st2 : ManagerState :=
          { st with globalScripts := insertA st.globalScripts scriptId info }
        (Except.ok pid, st2,
          pre ++
            [Action.spawnProc pid, Action.lock Category.globalScript,
             Action.unlock Category.globalScript,
             Action.emit (Event.globalScriptStatus scriptId ScriptStatus.running
               (some pid))])

/-- `ProcessManager::stop_global_script`. -/
def stop_global_script (st : ManagerState) (scriptId : String) :
    Except String Unit × ManagerState × List Action :=
  match lookupA st.globalScripts scriptId with
  | some info =>
      (Except.ok (), { st with globalScripts := removeA st.globalScripts scriptId },
        [Action.lock Category.globalScript, Action.killTree info.pid,
         Action.killChild info.pid, Action.waitChild info.pid,
         Action.emit (Event.globalScriptStatus scriptId ScriptStatus.failed none),
         Action.unlock Category.globalScript])
  | none =>
      (Except.error "Global script is not running", st,
        [Action.lock Category.globalScript, Action.unlock Category.globalScript])

/-- `ProcessManager::is_global_script_running`. -/
def is_global_script_running (st : ManagerState) (scriptId : String) : Bool :=
  containsA st.globalScripts scriptId

/-- Oracle for `Child::try_wait()`: `exited code` for `Ok(Some(status))`
with `status.code() == code` (`none` when the process was killed by a
signal), `stillRunning` for `Ok(None)`, `waitFailed` for `Err(_)`. -/
inductive TryWaitResult
  | exited (code : Option Int)
  | stillRunning
  | waitFailed
deriving DecidableEq, Repr

/-- One iteration of the exit-watch loop spawned by `start_service`.
`mode` and `argPreset` are the `exit_mode` / `exit_arg_preset` clones
captured at launch.  Returns the successor state, the action trace of the
iteration, and `true` when the loop continues with another iteration. -/
def service_watch_tick (st : ManagerState) (serviceId : String)
    (mode argPreset : Option String) (tw : TryWaitResult) :
    ManagerState × List Action × Bool :=
  if st.shutdownFlag then (st, [], false)
  else
    match lookupA st.processes serviceId with
    | none =>
        (st, [Action.sleepMs 100, Action.lock Category.service,
          Action.unlock Category.service], false)
    | some info =>
        match tw with
        | TryWaitResult.stillRunning =>
            (st, [Action.sleepMs 100, Action.lock Category.service,
              Action.tryWaitChild info.pid, Action.unlock Category.service],
              true)
        | TryWaitResult.exited code =>
            let st2 : ManagerState :=
              { st with processes := removeA st.processes serviceId }
            let base : List Action :=
              [Action.sleepMs 100, Action.lock Category.service,
               Action.tryWaitChild info.pid, Action.unlock Category.service,
               Action.lock Category.service, Action.unlock Category.service]
            if st2.shutdownFlag then (st2, base, false)
            else
              (st2, base ++
                [Action.emit (Event.serviceStatus serviceId
                   ServiceStatus.stopped none mode argPreset),
                 Action.emit (Event.serviceExit serviceId code)], false)
        | TryWaitResult.waitFailed =>
            let st2 : ManagerState :=
              { st with processes := removeA st.processes serviceId }
            let base : List Action :=
              [Action.sleepMs 100, Action.lock Category.service,
               Action.tryWaitChild info.pid, Action.unlock Category.service,
               Action.lock Category.service, Action.unlock Category.service]
            if st2.shutdownFlag then (st2, base, false)
            else
              (st2, base ++
                [Action.emit (Event.serviceStatus serviceId
                   ServiceStatus.stopped none mode argPreset),
                 Action.emit (Event.serviceExit serviceId none)], false)

/-- The `success` flag computed by the script exit watchers:
`exit_code.map(|c| c == 0).unwrap_or(false)`. -/
def scriptSuccess (code : Option Int) : Bool :=
  (code.map (fun c => c == (0 : Int))).getD false

/-- One iteration of the exit-watch loop spawned by `run_script`. -/
def script_watch_tick (st : ManagerState) (scriptId : String)
    (tw : TryWaitResult) : ManagerState × List Action × Bool :=
  if st.shutdownFlag then (st, [], false)
  else
    match lookupA st.scripts scriptId with
    | none =>
        (st, [Action.sleepMs 100, Action.lock Category.projectScript,
          Action.unlock Category.projectScript], false)
    | some info =>
        match tw with
        | TryWaitResult.stillRunning =>
            (st, [Action.sleepMs 100, Action.lock Category.projectScript,
              Action.tryWaitChild info.pid, Action.unlock Category.projectScript],
              true)
        | TryWaitResult.exited code =>
            let st2 : ManagerState :=
              { st with scripts := removeA st.scripts scriptId }
            let base : List Action :=
              [Action.sleepMs 100, Action.lock Category.projectScript,
               Action.tryWaitChild info.pid, Action.unlock Category.projectScript,
               Action.lock Category.projectScript, Action.unlock Category.projectScript]
            if st2.shutdownFlag then (st2, base, false)
            else
              (st2, base ++
                [Action.emit (Event.scriptStatus scriptId
                   (if scriptSuccess code then ScriptStatus.completed
                    else ScriptStatus.failed) none),
                 Action.emit (Event.scriptExit scriptId code
                   (scriptSuccess code))], false)
        | TryWaitResult.waitFailed =>
            let st2 : ManagerState :=
              { st with scripts := removeA st.scripts scriptId }
            let base : List Action :=
              [Action.sleepMs 100, Action.lock Category.projectScript,
               Action.tryWaitChild info.pid, Action.unlock Category.projectScript,
               Action.lock Category.projectScript, Action.unlock Category.projectScript]
            if st2.shutdownFlag then (st2, base, false)
            else
              (st2, base ++
                [Action.emit (Event.scriptStatus scriptId
                   ScriptStatus.failed none),
                 Action.emit (Event.scriptExit scriptId none false)], false)

/-- One iteration of the exit-watch loop spawned by `run_global_script`. -/
def global_script_watch_tick (st : ManagerState) (scriptId : String)
    (tw : TryWaitResult) : ManagerState × List Action × Bool :=
  if st.shutdownFlag then (st, [], false)
  else
    match lookupA st.globalScripts scriptId with
    | none =>
        (st, [Action.sleepMs 100, Action.lock Category.globalScript,
          Action.unlock Category.globalScript], false)
    | some info =>
        match tw with
        | TryWaitResult.stillRunning =>
            (st, [Action.sleepMs 100, Action.lock Category.globalScript,
              Action.tryWaitChild info.pid, Action.unlock Category.globalScript],
              true)
        | TryWaitResult.exited code =>
            let st2 : ManagerState :=
              { st with globalScripts := removeA st.globalScripts scriptId }
            let base : List Action :=
              [Action.sleepMs 100, Action.lock Category.globalScript,
               Action.tryWaitChild info.pid, Action.unlock Category.globalScript,
               Action.lock Category.globalScript, Action.unlock Category.globalScript]
            if st2.shutdownFlag then (st2, base, false)
            else
              (st2, base ++
                [Action.emit (Event.globalScriptStatus scriptId
                   (if scriptSuccess code then ScriptStatus.completed
                    else ScriptStatus.failed) none),
                 Action.emit (Event.globalScriptExit scriptId code
                   (scriptSuccess code))], false)
        | TryWaitResult.waitFailed =>
            let st2 : ManagerState :=
              { st with globalScripts := removeA st.globalScripts scriptId }
            let base : List Action :=
              [Action.sleepMs 100, Action.lock Category.globalScript,
               Action.tryWaitChild info.pid, Action.unlock Category.globalScript,
               Action.lock Category.globalScript, Action.unlock Category.globalScript]
            if st2.shutdownFlag then (st2, base, false)
            else
              (st2, base ++
                [Action.emit (Event.globalScriptStatus scriptId
                   ScriptStatus.failed none),
                 Action.emit (Event.globalScriptExit scriptId none false)], false)

/-- True for a UTF-8 continuation byte (`0x80..=0xBF`). -/
def isContByte (b : Nat) : Bool :=
  0x80 ≤ b && b < 0xC0

/-- Strict UTF-8 decoding of a byte sequence to a list of scalar values,
as performed by Rust's `String::from_utf8` inside `BufRead::read_line`:
`none` on any invalid, overlong, surrogate or out-of-range encoding. -/
def utf8Decode : List Nat → Option (List Nat)
  | [] => some []
  | b :: rest =>
    if b < 0x80 then
      (utf8Decode rest).map (fun cs => b :: cs)
    else if b < 0xC2 then none
    else if b < 0xE0 then
      match rest with
      | b1 :: rest1 =>
          if isContByte b1 then
            (utf8Decode rest1).map
              (fun cs => ((b - 0xC0) * 0x40 + (b1 - 0x80)) :: cs)
          else none
      | [] => none
    else if b < 0xF0 then
      match rest with
      | b1 :: b2 :: rest2 =>
          if isContByte b1 && isContByte b2 then
            let cp := (b - 0xE0) * 0x1000 + (b1 - 0x80) * 0x40 + (b2 - 0x80)
            if cp < 0x800 then none
            else if 0xD800 ≤ cp && cp < 0xE000 then none
            else (utf8Decode rest2).map (fun cs => cp :: cs)
          else none
      | _ => none
    else if b < 0xF5 then
      match rest with
      | b1 :: b2 :: b3 :: rest3 =>
          if isContByte b1 && isContByte b2 && isContByte b3 then
            let cp := (b - 0xF0) * 0x40000 + (b1 - 0x80) * 0x1000 +
              (b2 - 0x80) * 0x40 + (b3 - 0x80)
            if cp < 0x10000 || 0x110000 ≤ cp then none
            else (utf8Decode rest3).map (fun cs => cp :: cs)
          else none
      | _ => none
    else none

/-- The result one element of `BufRead::lines()` delivers for a line whose
raw bytes are `bytes`: `Ok` with the decoded string when the bytes are
valid UTF-8, `Err` (an `InvalidData` I/O error) otherwise. -/
def rustLineRead (bytes : List Nat) : Except Unit String :=
  match utf8Decode bytes with
  | some cs => Except.ok (String.mk (cs.map Char.ofNat))
  | none => Except.error ()

/-- The stdout pump thread of `start_service`: `for line in reader.lines()
{ if let Ok(line) = line { emit_service_log(..) } }`.  One `lines()` result
per element; `Err` lines are skipped without stopping the loop. -/
def service_stdout_pump (serviceId : String)
    (lines : List (Except Unit String)) : List Action :=
  lines.filterMap (fun l =>
    match l with
    | Except.ok s =>
        some (Action.emit (Event.serviceLog serviceId LogStream.stdout s))
    | Except.error _ => none)

/-- The stderr pump thread of `start_service`. -/
def service_stderr_pump (serviceId : String)
    (lines : List (Except Unit String)) : List Action :=
  lines.filterMap (fun l =>
    match l with
    | Except.ok s =>
        some (Action.emit (Event.serviceLog serviceId LogStream.stderr s))
    | Except.error _ => none)

/-- The stdout pump thread of `run_script`. -/
def script_stdout_pump (scriptId : String)
    (lines : List (Except Unit String)) : List Action :=
  lines.filterMap (fun l =>
    match l with
    | Except.ok s =>
        some (Action.emit (Event.scriptLog scriptId LogStream.stdout s))
    | Except.error _ => none)

/-- The stderr pump thread of `run_script`. -/
def script_stderr_pump (scriptId : String)
    (lines : List (Except Unit String)) : List Action :=
  lines.filterMap (fun l =>
    match l with
    | Except.ok s =>
        some (Action.emit (Event.scriptLog scriptId LogStream.stderr s))
    | Except.error _ => none)

/-- The stdout pump thread of `run_global_script`. -/
def global_script_stdout_pump (scriptId : String)
    (lines : List (Except Unit String)) : List Action :=
  lines.filterMap (fun l =>
    match l with
    | Except.ok s =>
        some (Action.emit (Event.globalScriptLog scriptId LogStream.stdout s))
    | Except.error _ => none)

/-- The stderr pump thread of `run_global_script`. -/
def global_script_stderr_pump (scriptId : String)
    (lines : List (Except Unit String)) : List Action :=
  lines.filterMap (fun l =>
    match l with
    | Except.ok s =>
        some (Action.emit (Event.globalScriptLog scriptId LogStream.stderr s))
    | Except.error _ => none)

/-- The stdout pump of `run_script` applied to the raw bytes of each line
as delivered by the pipe. -/
def script_stdout_pump_bytes (scriptId : String)
    (lineBytes : List (List Nat)) : List Action :=
  script_stdout_pump scriptId (lineBytes.map rustLineRead)

/-- One entry of the `scripts` argument of `run_script_group`
(`(id, working_dir, program, args, env_vars)`), extended with the two OS
oracles the model needs: the spawn result for this entry and the exit code
its process eventually reports to the exit watcher. -/
structure GroupSpec where
  id : String
  workingDir : String
  program : String
  args : List String
  spawn : Except String Nat
  exitCode : Option Int
deriving DecidableEq, Repr

/-- The sequential branch of `run_script_group`: launch each entry in list
order; the result (including a failure) is pushed before the
`stop_on_failure` break; after a successful launch the calling thread
polls `is_global_script_running` until the exit watcher has removed the
entry (modelled by running the watcher's exit tick) before proceeding. -/
def run_group_seq (st : ManagerState) (specs : List GroupSpec)
    (stopOnFailure : Bool) :
    List (String × Except String Nat) × ManagerState × List Action :=
  match specs with
  | [] => ([], st, [])
  | s :: rest =>
    let launched := run_global_script st s.id s.spawn
    match launched.1 with
    | Except.error e =>
        if stopOnFailure then
          ([(s.id, Except.error e)], launched.2.1, launched.2.2)
        else
          let tail := run_group_seq launched.2.1 rest stopOnFailure
          ((s.id, Except.error e) :: tail.1, tail.2.1,
            launched.2.2 ++ tail.2.2)
    | Except.ok pid =>
        let waited :=
          global_script_watch_tick launched.2.1 s.id
            (TryWaitResult.exited s.exitCode)
        let tail := run_group_seq waited.1 rest stopOnFailure
        ((s.id, Except.ok pid) :: tail.1, tail.2.1,
          launched.2.2 ++ waited.2.1 ++ tail.2.2)

/-- The parallel branch of `run_script_group`: launch every entry without
waiting. -/
def run_group_par (st : ManagerState) (specs : List GroupSpec) :
    List (String × Except String Nat) × ManagerState × List Action :=
  match specs with
  | [] => ([], st, [])
  | s :: rest =>
    let launched := run_global_script st s.id s.spawn
    let tail := run_group_par launched.2.1 rest
    ((s.id, launched.1) :: tail.1, tail.2.1, launched.2.2 ++ tail.2.2)

/-- `ProcessManager::run_script_group`. -/
def run_script_group (st : ManagerState) (specs : List GroupSpec)
    (sequential stopOnFailure : Bool) :
    List (String × Except String Nat) × ManagerState × List Action :=
  if sequential then run_group_seq st specs stopOnFailure
  else run_group_par st specs

/-- `ProcessManager::stop_all`: set the shutdown flag, snapshot the pids of
all three registries, robust-kill each, drain every map (killing and
waiting on each owned child), then robust-kill the snapshots once more.
No events are emitted on this path. -/
def stop_all (st : ManagerState) : ManagerState × List Action :=
  let servicePids := st.processes.map (fun p => p.2.pid)
  let scriptPids := st.scripts.map (fun p => p.2.pid)
  let globalPids := st.globalScripts.map (fun p => p.2.pid)
  let st2 : ManagerState :=
    { processes := [], scripts := [], globalScripts := [],
      shutdownFlag := true }
  (st2,
    [Action.setShutdownFlag, Action.sleepMs 50,
     Action.lock Category.service, Action.unlock Category.service,
     Action.lock Category.projectScript, Action.unlock Category.projectScript,
     Action.lock Category.globalScript, Action.unlock Category.globalScript] ++
    (servicePids ++ scriptPids ++ globalPids).map Action.killTreeRobust ++
    [Action.lock Category.service] ++
    (servicePids.flatMap (fun p => [Action.killChild p, Action.waitChild p])) ++
    [Action.unlock Category.service, Action.lock Category.projectScript] ++
    (scriptPids.flatMap (fun p => [Action.killChild p, Action.waitChild p])) ++
    [Action.unlock Category.projectScript, Action.lock Category.globalScript] ++
    (globalPids.flatMap (fun p => [Action.killChild p, Action.waitChild p])) ++
    [Action.unlock Category.globalScript] ++
    (servicePids ++ scriptPids ++ globalPids).map Action.killTreeRobust)

/-- A key lookup after removal of that key yields nothing. -/
theorem lookupA_removeA (m : List (String × ProcessInfo)) (k : String) :
    lookupA (removeA m k) k = none := by
  induction m with
  | nil => rfl
  | cons p rest ih =>
      obtain ⟨k2, v⟩ := p
      by_cases hk : k2 = k
      · simpa [removeA, List.filter_cons, hk] using ih
      · simpa [removeA, List.filter_cons, hk, lookupA] using ih

/-- Removal of an absent key is the identity. -/
theorem removeA_not_contains (m : List (String × ProcessInfo)) (k : String)
    (h : containsA m k = false) : removeA m k = m := by
  induction m with
  | nil => rfl
  | cons p rest ih =>
      obtain ⟨k2, v⟩ := p
      simp only [containsA, lookupA] at h
      by_cases hk : k2 = k
      · rw [if_pos hk] at h
        simp at h
      · rw [if_neg hk] at h
        have h2 : removeA rest k = rest := ih h
        simp only [removeA, List.filter_cons] at h2 ⊢
        rw [if_pos (by simp [hk]), h2]

/-- Lookup of a freshly inserted key. -/
theorem lookupA_insertA (m : List (String × ProcessInfo)) (k : String)
    (v : ProcessInfo) : lookupA (insertA m k v) k = some v := by
  simp [insertA, lookupA]

/-- Removing a freshly inserted absent key restores the map. -/
theorem removeA_insertA (m : List (String × ProcessInfo)) (k : String)
    (v : ProcessInfo) (h : containsA m k = false) :
    removeA (insertA m k v) k = m := by
  have h2 := removeA_not_contains m k h
  simp only [removeA] at h2
  simp only [insertA, removeA, List.filter_cons]
  rw [if_neg (by simp)]
  simp only [h2]

/-- C1: for every category, a launch made while the id is already present
in that category's registry map returns the `AlreadyRunning` error string
and performs no further action: no event is emitted, no OS process is
spawned, and the manager state (all three registry maps) is unchanged. -/
theorem C1_already_running_launch_is_inert (st : ManagerState) (id : String)
    (mode argPreset : Option String) (spawn : Except String Nat) :
    (containsA st.processes id = true →
      (start_service st id mode argPreset spawn).1 =
          Except.error "Service is already running" ∧
      (start_service st id mode argPreset spawn).2.1 = st ∧
      eventsOf (start_service st id mode argPreset spawn).2.2 = [] ∧
      spawnCount (start_service st id mode argPreset spawn).2.2 = 0) ∧
    (containsA st.scripts id = true →
      (run_script st id spawn).1 = Except.error "Script is already running" ∧
      (run_script st id spawn).2.1 = st ∧
      eventsOf (run_script st id spawn).2.2 = [] ∧
      spawnCount (run_script st id spawn).2.2 = 0) ∧
    (containsA st.globalScripts id = true →
      (run_global_script st id spawn).1 =
          Except.error "Global script is already running" ∧
      (run_global_script st id spawn).2.1 = st ∧
      eventsOf (run_global_script st id spawn).2.2 = [] ∧
      spawnCount (run_global_script st id spawn).2.2 = 0) := by
  refine ⟨fun h => ?_, fun h => ?_, fun h => ?_⟩ <;>
    simp [start_service, run_script, run_global_script, h, eventsOf, spawnCount]

/-- State with the id `"x"` registered in all three categories, exercising
C1. -/
def c1State : ManagerState :=
  { processes := [("x", ⟨"x", 7, none, none⟩)],
    scripts := [("x", ⟨"x", 8, none, none⟩)],
    globalScripts := [("x", ⟨"x", 9, none, none⟩)],
    shutdownFlag := false }

/-- Witness for C1 at the concrete state `c1State` and id `"x"`. -/
theorem C1_witness :
    containsA c1State.processes "x" = true ∧
    containsA c1State.scripts "x" = true ∧
    containsA c1State.globalScripts "x" = true ∧
    ((start_service c1State "x" none none (Except.ok 20)).1 =
        Except.error "Service is already running" ∧
      (start_service c1State "x" none none (Except.ok 20)).2.1 = c1State ∧
      eventsOf (start_service c1State "x" none none (Except.ok 20)).2.2 = [] ∧
      spawnCount (start_service c1State "x" none none (Except.ok 20)).2.2 = 0) ∧
    ((run_script c1State "x" (Except.ok 20)).1 =
        Except.error "Script is already running" ∧
      (run_script c1State "x" (Except.ok 20)).2.1 = c1State ∧
      eventsOf (run_script c1State "x" (Except.ok 20)).2.2 = [] ∧
      spawnCount (run_script c1State "x" (Except.ok 20)).2.2 = 0) ∧
    ((run_global_script c1State "x" (Except.ok 20)).1 =
        Except.error "Global script is already running" ∧
      (run_global_script c1State "x" (Except.ok 20)).2.1 = c1State ∧
      eventsOf (run_global_script c1State "x" (Except.ok 20)).2.2 = [] ∧
      spawnCount (run_global_script c1State "x" (Except.ok 20)).2.2 = 0) :=
  ⟨by decide, by decide, by decide,
   (C1_already_running_launch_is_inert c1State "x" none none
     (Except.ok 20)).1 (by decide),
   (C1_already_running_launch_is_inert c1State "x" none none
     (Except.ok 20)).2.1 (by decide),
   (C1_already_running_launch_is_inert c1State "x" none none
     (Except.ok 20)).2.2 (by decide)⟩

/-- C6: when the OS spawn fails, every launch function returns the
`SpawnFailed` error string, the manager state is unchanged (so no registry
entry exists, and `is_running` on that id is false immediately after), and
a retry of the same id can succeed immediately. -/
theorem C6_spawn_failure_leaves_no_trace (st : ManagerState) (id : String)
    (mode argPreset : Option String) (reason : String) (pid : Nat) :
    (containsA st.processes id = false →
      (start_service st id mode argPreset (Except.error reason)).1 =
          Except.error ("Failed to start process: " ++ reason) ∧
      (start_service st id mode argPreset (Except.error reason)).2.1 = st ∧
      is_running (start_service st id mode argPreset
        (Except.error reason)).2.1 id = false ∧
      (start_service (start_service st id mode argPreset
          (Except.error reason)).2.1 id mode argPreset (Except.ok pid)).1 =
        Except.ok pid) ∧
    (containsA st.scripts id = false →
      (run_script st id (Except.error reason)).1 =
          Except.error ("Failed to start script: " ++ reason) ∧
      (run_script st id (Except.error reason)).2.1 = st ∧
      is_script_running (run_script st id (Except.error reason)).2.1 id =
        false ∧
      (run_script (run_script st id (Except.error reason)).2.1 id
          (Except.ok pid)).1 = Except.ok pid) ∧
    (containsA st.globalScripts id = false →
      (run_global_script st id (Except.error reason)).1 =
          Except.error ("Failed to start global script: " ++ reason) ∧
      (run_global_script st id (Except.error reason)).2.1 = st ∧
      is_global_script_running
        (run_global_script st id (Except.error reason)).2.1 id = false ∧
      (run_global_script (run_global_script st id
          (Except.error reason)).2.1 id (Except.ok pid)).1 =
        Except.ok pid) := by
  refine ⟨fun h => ?_, fun h => ?_, fun h => ?_⟩ <;>
    simp [start_service, run_script, run_global_script, h, is_running,
      is_script_running, is_global_script_running]

/-- Witness for C6 on the empty manager state. -/
theorem C6_witness :
    containsA mgrNew.processes "bad" = false ∧
    ((start_service mgrNew "bad" none none (Except.error "No such file")).1 =
        Except.error "Failed to start process: No such file" ∧
      (start_service mgrNew "bad" none none
        (Except.error "No such file")).2.1 = mgrNew ∧
      is_running (start_service mgrNew "bad" none none
        (Except.error "No such file")).2.1 "bad" = false ∧
      (start_service (start_service mgrNew "bad" none none
          (Except.error "No such file")).2.1 "bad" none none
          (Except.ok 33)).1 = Except.ok 33) :=
  ⟨by decide,
   (C6_spawn_failure_leaves_no_trace mgrNew "bad" none none
     "No such file" 33).1 (by decide)⟩

/-- C7: in every category, stopping a registered id succeeds and removes
it; an immediately repeated stop returns the `NotRunning` error and leaves
the manager state unchanged. -/
theorem C7_stop_is_idempotent_from_caller (st : ManagerState) (id : String) :
    (containsA st.processes id = true →
      (stop_service st id).1 = Except.ok () ∧
      is_running (stop_service st id).2.1 id = false ∧
      (stop_service (stop_service st id).2.1 id).1 =
          Except.error "Service is not running" ∧
      (stop_service (stop_service st id).2.1 id).2.1 =
        (stop_service st id).2.1) ∧
    (containsA st.scripts id = true →
      (stop_script st id).1 = Except.ok () ∧
      is_script_running (stop_script st id).2.1 id = false ∧
      (stop_script (stop_script st id).2.1 id).1 =
          Except.error "Script is not running" ∧
      (stop_script (stop_script st id).2.1 id).2.1 =
        (stop_script st id).2.1) ∧
    (containsA st.globalScripts id = true →
      (stop_global_script st id).1 = Except.ok () ∧
      is_global_script_running (stop_global_script st id).2.1 id = false ∧
      (stop_global_script (stop_global_script st id).2.1 id).1 =
          Except.error "Global script is not running" ∧
      (stop_global_script (stop_global_script st id).2.1 id).2.1 =
        (stop_global_script st id).2.1) := by
  refine ⟨fun h => ?_, fun h => ?_, fun h => ?_⟩
  · rcases hl : lookupA st.processes id with _ | info
    · simp [containsA, hl] at h
    · simp [stop_service, hl, is_running, containsA, lookupA_removeA]
  · rcases hl : lookupA st.scripts id with _ | info
    · simp [containsA, hl] at h
    · simp [stop_script, hl, is_script_running, containsA, lookupA_removeA]
  · rcases hl : lookupA st.globalScripts id with _ | info
    · simp [containsA, hl] at h
    · simp [stop_global_script, hl, is_global_script_running, containsA,
        lookupA_removeA]

/-- State with the id `"y"` registered in all three categories, exercising
C7. -/
def c7State : ManagerState :=
  { processes := [("y", ⟨"y", 41, some "dev", none⟩)],
    scripts := [("y", ⟨"y", 42, none, none⟩)],
    globalScripts := [("y", ⟨"y", 43, none, none⟩)],
    shutdownFlag := false }

/-- Witness for C7 at the concrete state `c7State` and id `"y"`. -/
theorem C7_witness :
    containsA c7State.processes "y" = true ∧
    ((stop_service c7State "y").1 = Except.ok () ∧
      is_running (stop_service c7State "y").2.1 "y" = false ∧
      (stop_service (stop_service c7State "y").2.1 "y").1 =
          Except.error "Service is not running" ∧
      (stop_service (stop_service c7State "y").2.1 "y").2.1 =
        (stop_service c7State "y").2.1) ∧
    containsA c7State.scripts "y" = true ∧
    ((stop_script c7State "y").1 = Except.ok () ∧
      is_script_running (stop_script c7State "y").2.1 "y" = false ∧
      (stop_script (stop_script c7State "y").2.1 "y").1 =
          Except.error "Script is not running" ∧
      (stop_script (stop_script c7State "y").2.1 "y").2.1 =
        (stop_script c7State "y").2.1) :=
  ⟨by decide,
   (C7_stop_is_idempotent_from_caller c7State "y").1 (by decide),
   by decide,
   (C7_stop_is_idempotent_from_caller c7State "y").2.1 (by decide)⟩

/-- C3: the success flag computed by the exit watchers is true exactly when
the exit code is `Some(0)`; the terminal status a watcher emits is
`Completed` exactly when success holds and `Failed` otherwise (including
the wait-error path, which reports exit code `none` and success false);
and a caller-initiated stop emits `Failed` for project and global scripts
and `Stopped` for services, never `Completed`, regardless of the process's
actual exit code. -/
theorem C3_exit_code_mapping (st : ManagerState) (id : String)
    (info : ProcessInfo) (code : Option Int) :
    (scriptSuccess code = true ↔ code = some 0) ∧
    (st.shutdownFlag = false → lookupA st.scripts id = some info →
      eventsOf (script_watch_tick st id (TryWaitResult.exited code)).2.1 =
        [Event.scriptStatus id
           (if scriptSuccess code then ScriptStatus.completed
            else ScriptStatus.failed) none,
         Event.scriptExit id code (scriptSuccess code)]) ∧
    (st.shutdownFlag = false → lookupA st.globalScripts id = some info →
      eventsOf (global_script_watch_tick st id
          (TryWaitResult.exited code)).2.1 =
        [Event.globalScriptStatus id
           (if scriptSuccess code then ScriptStatus.completed
            else ScriptStatus.failed) none,
         Event.globalScriptExit id code (scriptSuccess code)]) ∧
    (st.shutdownFlag = false → lookupA st.scripts id = some info →
      eventsOf (script_watch_tick st id TryWaitResult.waitFailed).2.1 =
        [Event.scriptStatus id ScriptStatus.failed none,
         Event.scriptExit id none false]) ∧
    (lookupA st.scripts id = some info →
      eventsOf (stop_script st id).2.2 =
        [Event.scriptStatus id ScriptStatus.failed none]) ∧
    (lookupA st.globalScripts id = some info →
      eventsOf (stop_global_script st id).2.2 =
        [Event.globalScriptStatus id ScriptStatus.failed none]) ∧
    (lookupA st.processes id = some info →
      eventsOf (stop_service st id).2.2 =
        [Event.serviceStatus id ServiceStatus.stopped none info.activeMode
          info.activeArgPreset]) := by
  refine ⟨?_, fun hf hl => ?_, fun hf hl => ?_, fun hf hl => ?_,
    fun hl => ?_, fun hl => ?_, fun hl => ?_⟩
  · cases code <;> simp [scriptSuccess]
  · simp [script_watch_tick, hf, hl, eventsOf]
  · simp [global_script_watch_tick, hf, hl, eventsOf]
  · simp [script_watch_tick, hf, hl, eventsOf]
  · simp [stop_script, hl, eventsOf]
  · simp [stop_global_script, hl, eventsOf]
  · simp [stop_service, hl, eventsOf]

/-- State with the id `"z"` registered in all three categories, exercising
C3. -/
def c3State : ManagerState :=
  { processes := [("z", ⟨"z", 51, none, none⟩)],
    scripts := [("z", ⟨"z", 52, none, none⟩)],
    globalScripts := [("z", ⟨"z", 53, none, none⟩)],
    shutdownFlag := false }

/-- Witness for C3 at `c3State`, exit code `some 0` (success) and via a
second application exit code `some 2` (failure). -/
theorem C3_witness :
    (scriptSuccess (some 0) = true ↔ (some 0 : Option Int) = some 0) ∧
    c3State.shutdownFlag = false ∧
    lookupA c3State.scripts "z" = some ⟨"z", 52, none, none⟩ ∧
    eventsOf (script_watch_tick c3State "z"
        (TryWaitResult.exited (some 0))).2.1 =
      [Event.scriptStatus "z"
         (if scriptSuccess (some 0) then ScriptStatus.completed
          else ScriptStatus.failed) none,
       Event.scriptExit "z" (some 0) (scriptSuccess (some 0))] ∧
    eventsOf (script_watch_tick c3State "z"
        (TryWaitResult.exited (some 2))).2.1 =
      [Event.scriptStatus "z"
         (if scriptSuccess (some 2) then ScriptStatus.completed
          else ScriptStatus.failed) none,
       Event.scriptExit "z" (some 2) (scriptSuccess (some 2))] ∧
    eventsOf (stop_script c3State "z").2.2 =
      [Event.scriptStatus "z" ScriptStatus.failed none] :=
  ⟨(C3_exit_code_mapping c3State "z" ⟨"z", 52, none, none⟩ (some 0)).1,
   by decide, by decide,
   (C3_exit_code_mapping c3State "z" ⟨"z", 52, none, none⟩
     (some 0)).2.1 (by decide) (by decide),
   (C3_exit_code_mapping c3State "z" ⟨"z", 52, none, none⟩
     (some 2)).2.1 (by decide) (by decide),
   (C3_exit_code_mapping c3State "z" ⟨"z", 52, none, none⟩
     (some 0)).2.2.2.2.1 (by decide)⟩

/-- C10: a successful `run_script` or `run_global_script` launch emits the
`Running` status exactly twice and emits no other event: once with
`pid = None` before the spawn action, and once with `pid = Some(pid)`
after it, by which point the handle is registered in the registry map. -/
theorem C10_running_status_twice (st : ManagerState) (id : String)
    (pid : Nat) :
    (containsA st.scripts id = false →
      (run_script st id (Except.ok pid)).1 = Except.ok pid ∧
      eventsOf (run_script st id (Except.ok pid)).2.2 =
        [Event.scriptStatus id ScriptStatus.running none,
         Event.scriptStatus id ScriptStatus.running (some pid)] ∧
      (∃ l1 l2, (run_script st id (Except.ok pid)).2.2 =
          l1 ++ Action.spawnProc pid :: l2 ∧
        eventsOf l1 = [Event.scriptStatus id ScriptStatus.running none] ∧
        eventsOf l2 =
          [Event.scriptStatus id ScriptStatus.running (some pid)]) ∧
      lookupA (run_script st id (Except.ok pid)).2.1.scripts id =
        some ⟨id, pid, none, none⟩) ∧
    (containsA st.globalScripts id = false →
      (run_global_script st id (Except.ok pid)).1 = Except.ok pid ∧
      eventsOf (run_global_script st id (Except.ok pid)).2.2 =
        [Event.globalScriptStatus id ScriptStatus.running none,
         Event.globalScriptStatus id ScriptStatus.running (some pid)] ∧
      (∃ l1 l2, (run_global_script st id (Except.ok pid)).2.2 =
          l1 ++ Action.spawnProc pid :: l2 ∧
        eventsOf l1 =
          [Event.globalScriptStatus id ScriptStatus.running none] ∧
        eventsOf l2 =
          [Event.globalScriptStatus id ScriptStatus.running (some pid)]) ∧
      lookupA (run_global_script st id (Except.ok pid)).2.1.globalScripts
        id = some ⟨id, pid, none, none⟩) := by
  constructor
  · intro h
    refine ⟨by simp [run_script, h], by simp [run_script, h, eventsOf],
      ⟨[Action.lock Category.projectScript, Action.unlock Category.projectScript,
        Action.emit (Event.scriptStatus id ScriptStatus.running none)],
       [Action.lock Category.projectScript, Action.unlock Category.projectScript,
        Action.emit (Event.scriptStatus id ScriptStatus.running (some pid))],
       by simp [run_script, h], by simp [eventsOf], by simp [eventsOf]⟩,
      by simp [run_script, h, lookupA_insertA]⟩
  · intro h
    refine ⟨by simp [run_global_script, h],
      by simp [run_global_script, h, eventsOf],
      ⟨[Action.lock Category.globalScript, Action.unlock Category.globalScript,
        Action.emit (Event.globalScriptStatus id ScriptStatus.running none)],
       [Action.lock Category.globalScript, Action.unlock Category.globalScript,
        Action.emit (Event.globalScriptStatus id ScriptStatus.running (some pid))],
       by simp [run_global_script, h], by simp [eventsOf], by simp [eventsOf]⟩,
      by simp [run_global_script, h, lookupA_insertA]⟩

/-- Count of `scriptExit` events for a given id. -/
def countScriptExitEvents (id : String) (evs : List Event) : Nat :=
  evs.countP (fun e =>
    match e with
    | Event.scriptExit i _ _ => i == id
    | _ => false)

/-- Count of terminal (`Completed` or `Failed`) `scriptStatus` events for a
given id. -/
def countScriptTerminalStatus (id : String) (evs : List Event) : Nat :=
  evs.countP (fun e =>
    match e with
    | Event.scriptStatus i s _ =>
        i == id &&
          (s == ScriptStatus.completed || s == ScriptStatus.failed)
    | _ => false)

/-- A complete lifecycle for C2: successful launch of script `"s"`, then a
caller-initiated stop, then the exit watcher's next tick, which finds the
entry removed and exits silently. -/
def c2Launch : Except String Nat × ManagerState × List Action :=
  run_script mgrNew "s" (Except.ok 42)

/-- The stop call of the C2 scenario. -/
def c2Stop : Except String Unit × ManagerState × List Action :=
  stop_script c2Launch.2.1 "s"

/-- The exit watcher's tick after the stop of the C2 scenario. -/
def c2Tick : ManagerState × List Action × Bool :=
  script_watch_tick c2Stop.2.1 "s" TryWaitResult.stillRunning

/-- All actions performed in the C2 scenario. -/
def c2Trace : List Action :=
  c2Launch.2.2 ++ c2Stop.2.2 ++ c2Tick.2.1

/-- C2 counterexample: a successful launch terminated by a caller-initiated
stop.  The launch succeeds, the stop succeeds and deregisters the script,
the watcher tick then exits silently, yet the whole lifecycle emits one
terminal `Status` and zero `Exit` events — not the exactly-one
`Status`/`Exit` pair ("never zero") that the claim asserts for every
successful launch including stop-caused termination. -/
theorem C2_counterexample :
    c2Launch.1 = Except.ok 42 ∧
    c2Stop.1 = Except.ok () ∧
    c2Tick.2.2 = false ∧
    is_script_running c2Tick.1 "s" = false ∧
    countScriptTerminalStatus "s" (eventsOf c2Trace) = 1 ∧
    countScriptExitEvents "s" (eventsOf c2Trace) = 0 := by decide

/-- C2 amended: a natural exit observed by the exit watcher (entry still
registered, shutdown unset) emits exactly one terminal `Status` and
exactly one `Exit` event and deregisters the entry; a caller-initiated
stop emits exactly one terminal `Status` and no `Exit` event; once the
entry is deregistered, subsequent watch ticks and stop calls emit nothing
(so neither path's terminal events can be repeated). -/
theorem C2_terminal_events_per_path (st : ManagerState) (id : String)
    (info : ProcessInfo) (code : Option Int) (tw : TryWaitResult) :
    (st.shutdownFlag = false → lookupA st.scripts id = some info →
      countScriptTerminalStatus id
        (eventsOf (script_watch_tick st id
          (TryWaitResult.exited code)).2.1) = 1 ∧
      countScriptExitEvents id
        (eventsOf (script_watch_tick st id
          (TryWaitResult.exited code)).2.1) = 1 ∧
      is_script_running (script_watch_tick st id
        (TryWaitResult.exited code)).1 id = false ∧
      (script_watch_tick st id (TryWaitResult.exited code)).2.2 = false) ∧
    (lookupA st.scripts id = some info →
      countScriptTerminalStatus id (eventsOf (stop_script st id).2.2) = 1 ∧
      countScriptExitEvents id (eventsOf (stop_script st id).2.2) = 0 ∧
      is_script_running (stop_script st id).2.1 id = false) ∧
    (lookupA st.scripts id = none →
      eventsOf (script_watch_tick st id tw).2.1 = [] ∧
      (script_watch_tick st id tw).2.2 = false ∧
      eventsOf (stop_script st id).2.2 = []) := by
  refine ⟨fun hf hl => ?_, fun hl => ?_, fun hl => ?_⟩
  · cases hs : scriptSuccess code <;>
      simp [script_watch_tick, hf, hl, hs, eventsOf,
        countScriptTerminalStatus, countScriptExitEvents,
        is_script_running, containsA, lookupA_removeA]
  · simp [stop_script, hl, eventsOf, countScriptTerminalStatus,
      countScriptExitEvents, is_script_running, containsA, lookupA_removeA]
  · cases hf : st.shutdownFlag <;>
      simp [script_watch_tick, stop_script, hf, hl, eventsOf]

/-- State with the script `"s"` registered, exercising the amended C2. -/
def c2State : ManagerState :=
  { processes := [], scripts := [("s", ⟨"s", 60, none, none⟩)],
    globalScripts := [], shutdownFlag := false }

/-- Witness for the amended C2 at `c2State`. -/
theorem C2_witness :
    c2State.shutdownFlag = false ∧
    lookupA c2State.scripts "s" = some ⟨"s", 60, none, none⟩ ∧
    (countScriptTerminalStatus "s"
        (eventsOf (script_watch_tick c2State "s"
          (TryWaitResult.exited (some 0))).2.1) = 1 ∧
      countScriptExitEvents "s"
        (eventsOf (script_watch_tick c2State "s"
          (TryWaitResult.exited (some 0))).2.1) = 1 ∧
      is_script_running (script_watch_tick c2State "s"
        (TryWaitResult.exited (some 0))).1 "s" = false ∧
      (script_watch_tick c2State "s"
        (TryWaitResult.exited (some 0))).2.2 = false) ∧
    (countScriptTerminalStatus "s"
        (eventsOf (stop_script c2State "s").2.2) = 1 ∧
      countScriptExitEvents "s"
        (eventsOf (stop_script c2State "s").2.2) = 0 ∧
      is_script_running (stop_script c2State "s").2.1 "s" = false) :=
  ⟨by decide, by decide,
   (C2_terminal_events_per_path c2State "s" ⟨"s", 60, none, none⟩ (some 0)
     TryWaitResult.stillRunning).1 (by decide) (by decide),
   (C2_terminal_events_per_path c2State "s" ⟨"s", 60, none, none⟩ (some 0)
     TryWaitResult.stillRunning).2.1 (by decide)⟩

/-- `Ok`-ness of one `lines()` result. -/
def lineOk (l : Except Unit String) : Bool :=
  match l with
  | Except.ok _ => true
  | Except.error _ => false

/-- The service stdout pump emits exactly one `Log` event per `Ok` line. -/
theorem service_stdout_pump_length (id : String)
    (lines : List (Except Unit String)) :
    (eventsOf (service_stdout_pump id lines)).length =
      lines.countP lineOk := by
  induction lines with
  | nil => rfl
  | cons l rest ih =>
      cases l with
      | ok s =>
          simpa [service_stdout_pump, eventsOf, lineOk,
            List.filterMap_cons, List.countP_cons] using ih
      | error u =>
          simpa [service_stdout_pump, eventsOf, lineOk,
            List.filterMap_cons, List.countP_cons] using ih

/-- The service stderr pump emits exactly one `Log` event per `Ok` line. -/
theorem service_stderr_pump_length (id : String)
    (lines : List (Except Unit String)) :
    (eventsOf (service_stderr_pump id lines)).length =
      lines.countP lineOk := by
  induction lines with
  | nil => rfl
  | cons l rest ih =>
      cases l with
      | ok s =>
          simpa [service_stderr_pump, eventsOf, lineOk,
            List.filterMap_cons, List.countP_cons] using ih
      | error u =>
          simpa [service_stderr_pump, eventsOf, lineOk,
            List.filterMap_cons, List.countP_cons] using ih

/-- Service state used by the C4 scenario, before shutdown. -/
def c4State : ManagerState :=
  { processes := [("svc", ⟨"svc", 11, none, none⟩)], scripts := [],
    globalScripts := [], shutdownFlag := false }

/-- C4 counterexample: after `stop_all` has set the shutdown flag, a
service stdout pump thread still draining its pipe emits a `Log` event.
The pump loop (`for line in reader.lines() { .. emit_service_log(..) }`)
reads only from the pipe and never consults the `ShutdownSignal`, so its
emissions are unchanged by shutdown, refuting the claim that no further
`Log` events are emitted by any output-pump thread once shutdown begins. -/
theorem C4_counterexample :
    (stop_all c4State).1.shutdownFlag = true ∧
    eventsOf (service_stdout_pump "svc" [Except.ok "draining"]) =
      [Event.serviceLog "svc" LogStream.stdout "draining"] := by decide

/-- C4 amended: once the shutdown flag is set, every exit-watch tick emits
nothing and terminates its loop, so no further `Status`/`Exit` events come
from watch threads; the output-pump loops, however, are not governed by
the shutdown signal and emit exactly one `Log` event per `Ok` line they
still drain, until their pipes close. -/
theorem C4_shutdown_suppression_scope (st : ManagerState) (id : String)
    (mode argPreset : Option String) (tw : TryWaitResult)
    (lines : List (Except Unit String)) :
    (st.shutdownFlag = true →
      (service_watch_tick st id mode argPreset tw).2.1 = [] ∧
      (service_watch_tick st id mode argPreset tw).2.2 = false ∧
      (script_watch_tick st id tw).2.1 = [] ∧
      (script_watch_tick st id tw).2.2 = false ∧
      (global_script_watch_tick st id tw).2.1 = [] ∧
      (global_script_watch_tick st id tw).2.2 = false) ∧
    (eventsOf (service_stdout_pump id lines)).length =
      lines.countP lineOk ∧
    (eventsOf (service_stderr_pump id lines)).length =
      lines.countP lineOk := by
  refine ⟨fun hf => ?_, service_stdout_pump_length id lines,
    service_stderr_pump_length id lines⟩
  simp [service_watch_tick, script_watch_tick, global_script_watch_tick, hf]

/-- Manager state with the shutdown flag already set, for the C4
witness. -/
def c4ShutState : ManagerState :=
  { processes := [("svc", ⟨"svc", 11, none, none⟩)], scripts := [],
    globalScripts := [], shutdownFlag := true }

/-- Witness for the amended C4 at `c4ShutState`. -/
theorem C4_witness :
    c4ShutState.shutdownFlag = true ∧
    ((service_watch_tick c4ShutState "svc" none none
        (TryWaitResult.exited (some 0))).2.1 = [] ∧
      (service_watch_tick c4ShutState "svc" none none
        (TryWaitResult.exited (some 0))).2.2 = false ∧
      (script_watch_tick c4ShutState "svc"
        (TryWaitResult.exited (some 0))).2.1 = [] ∧
      (script_watch_tick c4ShutState "svc"
        (TryWaitResult.exited (some 0))).2.2 = false ∧
      (global_script_watch_tick c4ShutState "svc"
        (TryWaitResult.exited (some 0))).2.1 = [] ∧
      (global_script_watch_tick c4ShutState "svc"
        (TryWaitResult.exited (some 0))).2.2 = false) ∧
    (eventsOf (service_stdout_pump "svc"
        [Except.ok "a", Except.error (), Except.ok "b"])).length =
      [Except.ok "a", Except.error (), Except.ok "b"].countP lineOk :=
  ⟨by decide,
   (C4_shutdown_suppression_scope c4ShutState "svc" none none
     (TryWaitResult.exited (some 0)) []).1 (by decide),
   (C4_shutdown_suppression_scope c4ShutState "svc" none none
     (TryWaitResult.exited (some 0))
     [Except.ok "a", Except.error (), Except.ok "b"]).2.1⟩

/-- C8 counterexample: the byte sequence `0xFF` is not valid UTF-8, so
`BufRead::lines()` yields `Err(InvalidData)` for that line and the pump's
`if let Ok(line)` silently skips it: of two input lines only the valid one
(`"hi"`) is emitted, and no replacement-character decoding happens.  This
refutes the claim that malformed bytes are decoded leniently and that no
line is dropped because of its encoding. -/
theorem C8_counterexample :
    ([[0xFF], [104, 105]] : List (List Nat)).length = 2 ∧
    eventsOf (script_stdout_pump_bytes "s" [[0xFF], [104, 105]]) =
      [Event.scriptLog "s" LogStream.stdout "hi"] ∧
    (eventsOf (script_stdout_pump_bytes "s" [[0xFF], [104, 105]])).length =
      1 := by decide

/-- C8 amended: malformed or non-UTF-8 bytes are never fatal to the pump
loop — it continues with the remaining lines — but such lines are silently
skipped rather than decoded with replacement characters: the pump emits
exactly one `Log` event per line whose bytes decode as strict UTF-8, in
input order, and nothing for the others. -/
theorem C8_pump_skips_invalid_lines (id : String)
    (lineBytes : List (List Nat)) :
    eventsOf (script_stdout_pump_bytes id lineBytes) =
      (lineBytes.filter (fun b => (utf8Decode b).isSome)).map
        (fun b => Event.scriptLog id LogStream.stdout
          (String.mk (((utf8Decode b).getD []).map Char.ofNat))) := by
  induction lineBytes with
  | nil => rfl
  | cons b rest ih =>
      cases hd : utf8Decode b with
      | none =>
          simpa [script_stdout_pump_bytes, script_stdout_pump, rustLineRead,
            eventsOf, hd, List.filterMap_cons, List.filter_cons] using ih
      | some cs =>
          simpa [script_stdout_pump_bytes, script_stdout_pump, rustLineRead,
            eventsOf, hd, List.filterMap_cons, List.filter_cons] using ih

/-- State with the script `"s"` registered, exercising C9. -/
def c9State : ManagerState :=
  { processes := [], scripts := [("s", ⟨"s", 70, none, none⟩)],
    globalScripts := [], shutdownFlag := false }

/-- C9 counterexample: `stop_script` on a registered script succeeds but
emits its terminal `Status` event while still holding the scripts registry
mutex (the `MutexGuard` taken at the top of the function is only dropped
at the end of its body, after the emit), refuting the claim that the
engine never invokes the event sink under a registry lock. -/
theorem C9_counterexample :
    (stop_script c9State "s").1 = Except.ok () ∧
    emitsWhileLocked (stop_script c9State "s").2.2 = true := by decide

/-- C9 amended: the launch functions and the exit-watch loops emit events
only while no registry mutex is held (they copy what they need and release
the lock before emitting), but all three stop functions emit their
terminal `Status` event while still holding the category's registry
mutex. -/
theorem C9_lock_discipline (st : ManagerState) (id : String)
    (mode argPreset : Option String) (spawn : Except String Nat)
    (tw : TryWaitResult) (info : ProcessInfo) :
    emitsWhileLocked (start_service st id mode argPreset spawn).2.2 = false ∧
    emitsWhileLocked (run_script st id spawn).2.2 = false ∧
    emitsWhileLocked (run_global_script st id spawn).2.2 = false ∧
    emitsWhileLocked (service_watch_tick st id mode argPreset tw).2.1 =
      false ∧
    emitsWhileLocked (script_watch_tick st id tw).2.1 = false ∧
    emitsWhileLocked (global_script_watch_tick st id tw).2.1 = false ∧
    (lookupA st.processes id = some info →
      emitsWhileLocked (stop_service st id).2.2 = true) ∧
    (lookupA st.scripts id = some info →
      emitsWhileLocked (stop_script st id).2.2 = true) ∧
    (lookupA st.globalScripts id = some info →
      emitsWhileLocked (stop_global_script st id).2.2 = true) := by
  refine ⟨?_, ?_, ?_, ?_, ?_, ?_, fun hl => ?_, fun hl => ?_, fun hl => ?_⟩
  · cases hc : containsA st.processes id <;> cases spawn <;>
      simp [start_service, hc, emitsWhileLocked, emitsWhileLockedAux]
  · cases hc : containsA st.scripts id <;> cases spawn <;>
      simp [run_script, hc, emitsWhileLocked, emitsWhileLockedAux]
  · cases hc : containsA st.globalScripts id <;> cases spawn <;>
      simp [run_global_script, hc, emitsWhileLocked, emitsWhileLockedAux]
  · cases hf : st.shutdownFlag <;>
      rcases hl : lookupA st.processes id with _ | info2 <;>
      cases tw <;>
      simp [service_watch_tick, hf, hl, emitsWhileLocked,
        emitsWhileLockedAux]
  · cases hf : st.shutdownFlag <;>
      rcases hl : lookupA st.scripts id with _ | info2 <;>
      cases tw <;>
      simp [script_watch_tick, hf, hl, emitsWhileLocked,
        emitsWhileLockedAux]
  · cases hf : st.shutdownFlag <;>
      rcases hl : lookupA st.globalScripts id with _ | info2 <;>
      cases tw <;>
      simp [global_script_watch_tick, hf, hl, emitsWhileLocked,
        emitsWhileLockedAux]
  · simp [stop_service, hl, emitsWhileLocked, emitsWhileLockedAux]
  · simp [stop_script, hl, emitsWhileLocked, emitsWhileLockedAux]
  · simp [stop_global_script, hl, emitsWhileLocked, emitsWhileLockedAux]

/-- Witness for the amended C9 at `c9State`. -/
theorem C9_witness :
    lookupA c9State.scripts "s" = some ⟨"s", 70, none, none⟩ ∧
    emitsWhileLocked (stop_script c9State "s").2.2 = true ∧
    emitsWhileLocked (run_script c9State "other" (Except.ok 3)).2.2 =
      false :=
  ⟨by decide,
   (C9_lock_discipline c9State "s" none none (Except.ok 3)
     TryWaitResult.stillRunning ⟨"s", 70, none, none⟩).2.2.2.2.2.2.2.1
     (by decide),
   (C9_lock_discipline c9State "other" none none (Except.ok 3)
     TryWaitResult.stillRunning ⟨"s", 70, none, none⟩).2.1⟩

/-- `Result::is_ok` on a launch result. -/
def resultOk (r : Except String Nat) : Bool :=
  match r with
  | Except.ok _ => true
  | Except.error _ => false

/-- Reference description (from the specification's wording of §4.6) of
the sequential group result list, to be compared with `run_group_seq`:
entries are processed in input order; each attempted entry contributes the
pair `(id, launch result)`; a failed launch with `stop_on_failure` set
ends the list right after the recorded failure; otherwise every entry is
attempted. -/
def seqResultsFromSpec (specs : List GroupSpec) (stopOnFailure : Bool) :
    List (String × Except String Nat) :=
  match specs with
  | [] => []
  | s :: rest =>
    match s.spawn with
    | Except.error e =>
        if stopOnFailure then
          [(s.id, Except.error ("Failed to start global script: " ++ e))]
        else
          (s.id, Except.error ("Failed to start global script: " ++ e)) ::
            seqResultsFromSpec rest stopOnFailure
    | Except.ok pid =>
        (s.id, Except.ok pid) :: seqResultsFromSpec rest stopOnFailure

/-- Successful `run_global_script` on an unregistered id: result and
successor state. -/
theorem run_global_script_ok (st : ManagerState) (id : String) (pid : Nat)
    (h : containsA st.globalScripts id = false) :
    (run_global_script st id (Except.ok pid)).1 = Except.ok pid ∧
    (run_global_script st id (Except.ok pid)).2.1 =
      { st with globalScripts :=
          insertA st.globalScripts id ⟨id, pid, none, none⟩ } := by
  simp [run_global_script, h]

/-- Failed `run_global_script` on an unregistered id leaves the state
unchanged. -/
theorem run_global_script_err (st : ManagerState) (id : String) (e : String)
    (h : containsA st.globalScripts id = false) :
    (run_global_script st id (Except.error e)).1 =
      Except.error ("Failed to start global script: " ++ e) ∧
    (run_global_script st id (Except.error e)).2.1 = st := by
  simp [run_global_script, h]

/-- After a launch onto a fresh id, the watcher tick that observes the
exit removes the entry again and restores the original state exactly. -/
theorem global_watch_tick_restores (st : ManagerState) (id : String)
    (pid : Nat) (code : Option Int) (hflag : st.shutdownFlag = false)
    (h : containsA st.globalScripts id = false) :
    (global_script_watch_tick
      { st with globalScripts :=
          insertA st.globalScripts id ⟨id, pid, none, none⟩ }
      id (TryWaitResult.exited code)).1 = st := by
  obtain ⟨p, s, g, f⟩ := st
  simp only [ManagerState.shutdownFlag] at hflag
  subst hflag
  have hl := lookupA_insertA g id ⟨id, pid, none, none⟩
  have hr := removeA_insertA g id (⟨id, pid, none, none⟩ : ProcessInfo) h
  simp [global_script_watch_tick, hl, hr]

/-- `run_group_seq` computes the reference result list and restores the
initial state, provided shutdown is unset and the spec ids are not
registered initially. -/
theorem run_group_seq_spec (st : ManagerState) (sof : Bool)
    (hflag : st.shutdownFlag = false) :
    ∀ specs : List GroupSpec,
      (∀ s ∈ specs, containsA st.globalScripts s.id = false) →
      (run_group_seq st specs sof).1 = seqResultsFromSpec specs sof ∧
      (run_group_seq st specs sof).2.1 = st := by
  intro specs
  induction specs with
  | nil => intro _; exact ⟨rfl, rfl⟩
  | cons s rest ih =>
      intro hfresh
      have hs : containsA st.globalScripts s.id = false :=
        hfresh s (by simp)
      have hrest : ∀ x ∈ rest, containsA st.globalScripts x.id = false :=
        fun x hx => hfresh x (by simp [hx])
      have ihr := ih hrest
      cases hspawn : s.spawn with
      | error e =>
          have he := run_global_script_err st s.id e hs
          cases sof with
          | true =>
              simp [run_group_seq, seqResultsFromSpec, hspawn, he.1, he.2]
          | false =>
              simp [run_group_seq, seqResultsFromSpec, hspawn, he.1, he.2,
                ihr.1, ihr.2]
      | ok pid =>
          have ho := run_global_script_ok st s.id pid hs
          have hw := global_watch_tick_restores st s.id pid s.exitCode
            hflag hs
          simp [run_group_seq, seqResultsFromSpec, hspawn, ho.1, ho.2, hw,
            ihr.1, ihr.2]

/-- Without `stop_on_failure`, every entry is attempted. -/
theorem seqResultsFromSpec_length_all (specs : List GroupSpec) :
    (seqResultsFromSpec specs false).length = specs.length := by
  induction specs with
  | nil => rfl
  | cons s rest ih =>
      cases hspawn : s.spawn <;> simp [seqResultsFromSpec, hspawn, ih]

/-- The reported ids are the input ids, in order, up to the point the loop
stopped. -/
theorem seqResultsFromSpec_ids_prefix (specs : List GroupSpec)
    (sof : Bool) :
    (seqResultsFromSpec specs sof).map Prod.fst =
      (specs.map GroupSpec.id).take (seqResultsFromSpec specs sof).length := by
  induction specs with
  | nil => simp [seqResultsFromSpec]
  | cons s rest ih =>
      cases hspawn : s.spawn with
      | error e => cases sof <;> simp [seqResultsFromSpec, hspawn, ih]
      | ok pid => simp [seqResultsFromSpec, hspawn, ih]

/-- With `stop_on_failure`, a failure can only sit at the very end of the
result list: everything before it succeeded. -/
theorem seqResultsFromSpec_errors_last (specs : List GroupSpec) :
    (∀ p ∈ seqResultsFromSpec specs true, resultOk p.2 = true) ∨
    (∃ pref tailp, seqResultsFromSpec specs true = pref ++ [tailp] ∧
      (∀ p ∈ pref, resultOk p.2 = true) ∧ resultOk tailp.2 = false) := by
  induction specs with
  | nil => left; simp [seqResultsFromSpec]
  | cons s rest ih =>
      cases hspawn : s.spawn with
      | error e =>
          right
          exact ⟨[],
            (s.id, Except.error ("Failed to start global script: " ++ e)),
            by simp [seqResultsFromSpec, hspawn], by simp, rfl⟩
      | ok pid =>
          rcases ih with hall | ⟨pref, tailp, heq, hpref, htailp⟩
          · left
            intro p hp
            simp only [seqResultsFromSpec, hspawn, List.mem_cons] at hp
            rcases hp with rfl | hp
            · rfl
            · exact hall p hp
          · right
            refine ⟨(s.id, Except.ok pid) :: pref, tailp, ?_, ?_, htailp⟩
            · simp [seqResultsFromSpec, hspawn, heq]
            · intro p hp
              rcases List.mem_cons.mp hp with rfl | hp
              · rfl
              · exact hpref p hp

/-- C5: in sequential mode, the group runner processes the specs in list
order and pairs each attempted id with its launch result (equal to the
reference list read off the spec): a failure with `stop_on_failure` makes
the failure the last reported entry and later entries are neither launched
nor reported; without `stop_on_failure` every entry is attempted; the
reported ids are an input-order prefix; and between entries the calling
thread's poll has completed — the previously launched entity is no longer
registered, so the manager state returns to its initial value. -/
theorem C5_sequential_group_semantics (st : ManagerState)
    (specs : List GroupSpec) (sof : Bool)
    (hflag : st.shutdownFlag = false)
    (hfresh : ∀ s ∈ specs, containsA st.globalScripts s.id = false) :
    (run_group_seq st specs sof).1 = seqResultsFromSpec specs sof ∧
    (run_group_seq st specs sof).2.1 = st ∧
    (seqResultsFromSpec specs false).length = specs.length ∧
    ((run_group_seq st specs sof).1.map Prod.fst =
      (specs.map GroupSpec.id).take
        (run_group_seq st specs sof).1.length) ∧
    ((∀ p ∈ seqResultsFromSpec specs true, resultOk p.2 = true) ∨
      (∃ pref tailp, seqResultsFromSpec specs true = pref ++ [tailp] ∧
        (∀ p ∈ pref, resultOk p.2 = true) ∧ resultOk tailp.2 = false)) := by
  have hmain := run_group_seq_spec st sof hflag specs hfresh
  refine ⟨hmain.1, hmain.2, seqResultsFromSpec_length_all specs, ?_,
    seqResultsFromSpec_errors_last specs⟩
  rw [hmain.1]
  exact seqResultsFromSpec_ids_prefix specs sof

/-- Concrete specs for the C5 witness: the same id `"a"` twice (both
succeed sequentially because the runner waits for deregistration), then a
failing entry, then an entry that is skipped under `stop_on_failure`. -/
def c5Specs : List GroupSpec :=
  [⟨"a", "/w", "echo", ["1"], Except.ok 101, some 0⟩,
   ⟨"a", "/w", "echo", ["2"], Except.ok 102, some 1⟩,
   ⟨"b", "/w", "bad", [], Except.error "boom", none⟩,
   ⟨"c", "/w", "echo", [], Except.ok 103, some 0⟩]

/-- Witness for C5: on `c5Specs` with `stop_on_failure` the result stops
at `"b"`'s failure and `"c"` is absent; the duplicated id `"a"` launches
twice. -/
theorem C5_witness :
    mgrNew.shutdownFlag = false ∧
    (∀ s ∈ c5Specs, containsA mgrNew.globalScripts s.id = false) ∧
    (run_group_seq mgrNew c5Specs true).1 = seqResultsFromSpec c5Specs true ∧
    seqResultsFromSpec c5Specs true =
      [("a", Except.ok 101), ("a", Except.ok 102),
       ("b", Except.error "Failed to start global script: boom")] ∧
    (run_group_seq mgrNew c5Specs true).2.1 = mgrNew :=
  ⟨by decide, by decide,
   (C5_sequential_group_semantics mgrNew c5Specs true (by decide)
     (by decide)).1,
   by decide,
   (C5_sequential_group_semantics mgrNew c5Specs true (by decide)
     (by decide)).2.1⟩

/-- Witness for C10 on the empty manager state, id `"g"`, pid 5. -/
theorem C10_witness :
    containsA mgrNew.scripts "g" = false ∧
    ((run_script mgrNew "g" (Except.ok 5)).1 = Except.ok 5 ∧
      eventsOf (run_script mgrNew "g" (Except.ok 5)).2.2 =
        [Event.scriptStatus "g" ScriptStatus.running none,
         Event.scriptStatus "g" ScriptStatus.running (some 5)] ∧
      (∃ l1 l2, (run_script mgrNew "g" (Except.ok 5)).2.2 =
          l1 ++ Action.spawnProc 5 :: l2 ∧
        eventsOf l1 = [Event.scriptStatus "g" ScriptStatus.running none] ∧
        eventsOf l2 =
          [Event.scriptStatus "g" ScriptStatus.running (some 5)]) ∧
      lookupA (run_script mgrNew "g" (Except.ok 5)).2.1.scripts "g" =
        some ⟨"g", 5, none, none⟩) :=
  ⟨by decide, (C10_running_status_twice mgrNew "g" 5).1 (by decide)⟩

end CortX
